import Mathlib

/-!
Shallow embedding of the PearServer Cage lifecycle and orchestration core
(cage/mod.rs, cage/config.rs, cage/pool.rs, router/mod.rs, router/health.rs,
supervisor/mod.rs, deployment/mod.rs) together with theorems about the
frozen claims. Machine integers are modelled as Nat with explicit reduction
modulo 2^64 (u64) or 2^32 (u32) where the Rust counters can wrap; f64
values that are only stored, compared to constants, or combined with min
are modelled as rationals.
-/

namespace PearServer

/-- Modulus of Rust u64 arithmetic. -/
def u64Mod : Nat := 2 ^ 64

/-- Modulus of Rust u32 arithmetic. -/
def u32Mod : Nat := 2 ^ 32

/-- Largest u64 value, the sentinel used by the least-connected scan. -/
def u64Max : Nat := 2 ^ 64 - 1

/-- Lifecycle states of a Cage instance (enum CageState in cage/mod.rs). -/
inductive CageState where
  | Initializing
  | Running
  | Crashed
  | Terminating
  | Terminated
  deriving DecidableEq, Repr

/-- Resource configuration for a Cage (struct CageConfig in cage/config.rs). -/
structure CageConfig where
  memoryLimitBytes : Nat
  cpuTimeoutMs : Nat
  maxConcurrentRequests : Nat
  allowFilesystem : Bool
  allowNetwork : Bool
  preopenDirs : List String
  deriving DecidableEq, Repr

/-- Default configuration (impl Default for CageConfig). -/
def CageConfig.default : CageConfig :=
  { memoryLimitBytes := 128 * 1024 * 1024
    cpuTimeoutMs := 1000
    maxConcurrentRequests := 100
    allowFilesystem := false
    allowNetwork := false
    preopenDirs := [] }

/-- Configuration validation (CageConfig::validate). -/
def CageConfig.validate (c : CageConfig) : Except String Unit :=
  if c.memoryLimitBytes < 1024 * 1024 then
    .error "Memory limit must be at least 1MB"
  else if c.cpuTimeoutMs = 0 then
    .error "CPU timeout must be greater than 0"
  else if c.maxConcurrentRequests = 0 then
    .error "Max concurrent requests must be greater than 0"
  else .ok ()

/-- Observable state of one Cage (struct Cage in cage/mod.rs): lifecycle
state, request counters and the atomic healthy flag. The wasmtime engine,
module and store only matter through the success or failure of the
operations and are not part of the observable state. -/
structure Cage where
  id : Nat
  name : String
  state : CageState
  config : CageConfig
  requestCount : Nat
  activeRequests : Nat
  healthy : Bool
  deriving DecidableEq, Repr

/-- Cage::new, success path of module compilation: counters start at zero,
state starts at Initializing, and the healthy flag is constructed as
AtomicBool::new(true). -/
def Cage.new (id : Nat) (name : String) (config : CageConfig) : Cage :=
  { id := id
    name := name
    state := .Initializing
    config := config
    requestCount := 0
    activeRequests := 0
    healthy := true }

/-- Cage::initialize, success path of WASI linking and instantiation:
transitions the state to Running (the healthy flag is not touched). -/
def Cage.initializeOk (c : Cage) : Cage :=
  { c with state := .Running }

/-- Cage::is_healthy: reads the atomic healthy flag. -/
def Cage.isHealthy (c : Cage) : Bool := c.healthy

/-- The canned response of Cage::execute_wasm_function. -/
def wasmResponse (c : Cage) : String :=
  "\x7b\"cage_id\":" ++ toString c.id ++
    ",\"status\":\"ok\",\"message\":\"Processed by Cage " ++ c.name ++ "\"\x7d"

/-- Entry half of Cage::execute_request: bail out when the healthy flag is
unset, otherwise increment active_requests. The source has no check of
max_concurrent_requests. -/
def Cage.executeRequestBegin (c : Cage) : Except String Cage :=
  if c.isHealthy then
    .ok { c with activeRequests := (c.activeRequests + 1) % u64Mod }
  else
    .error ("Cage " ++ toString c.id ++ " is not healthy")

/-- Exit half of Cage::execute_request: decrement active_requests,
increment request_count and produce the response bytes. -/
def Cage.executeRequestFinish (c : Cage) : Cage × String :=
  ({ c with activeRequests := c.activeRequests - 1
            requestCount := (c.requestCount + 1) % u64Mod },
   wasmResponse c)

/-- Cage::execute_request viewed as one atomic step (entry half followed by
exit half with no interleaving). -/
def Cage.executeRequest (c : Cage) : Except String (Cage × String) :=
  match c.executeRequestBegin with
  | .error e => .error e
  | .ok c1 => .ok c1.executeRequestFinish

/-- Cage::health_check: in Running the healthy flag is stored true; in
Crashed, Terminating or Terminated it is stored false; in Initializing the
flag is left untouched and false is returned. -/
def Cage.healthCheck (c : Cage) : Cage × Bool :=
  match c.state with
  | .Running => ({ c with healthy := true }, true)
  | .Crashed | .Terminating | .Terminated => ({ c with healthy := false }, false)
  | .Initializing => (c, false)

/-- Cage::mark_crashed: state becomes Crashed and the healthy flag is
stored false. -/
def Cage.markCrashed (c : Cage) : Cage :=
  { c with state := .Crashed, healthy := false }

/-- Cage::terminate run to completion: after the bounded drain the state is
Terminated and the healthy flag is stored false. -/
def Cage.terminateOk (c : Cage) : Cage :=
  { c with state := .Terminated, healthy := false }

/-- Iterated entry halves of execute_request: n requests entering one Cage
with no request finishing in between. -/
def execBeginN : Cage → Nat → Except String Cage
  | c, 0 => .ok c
  | c, n + 1 =>
    match c.executeRequestBegin with
    | .error e => .error e
    | .ok c1 => execBeginN c1 n

/-- Cage states reachable through the public operations of the Cage, each
modelled as one atomic step on the observable state. -/
inductive ReachableCage : Cage → Prop where
  | new (id : Nat) (name : String) (config : CageConfig) :
      ReachableCage (Cage.new id name config)
  | initStep {c : Cage} : ReachableCage c → ReachableCage c.initializeOk
  | health {c : Cage} : ReachableCage c → ReachableCage c.healthCheck.1
  | execBegin {c c1 : Cage} : ReachableCage c →
      c.executeRequestBegin = .ok c1 → ReachableCage c1
  | execFinish {c : Cage} : ReachableCage c →
      ReachableCage c.executeRequestFinish.1
  | crashed {c : Cage} : ReachableCage c → ReachableCage c.markCrashed
  | term {c : Cage} : ReachableCage c → ReachableCage c.terminateOk

/-- Health status projection (enum HealthStatus in router/health.rs). -/
inductive HealthStatus where
  | Healthy
  | Degraded
  | Unhealthy
  deriving DecidableEq, Repr

/-- Circuit breaker state (enum CircuitState in router/health.rs). -/
inductive CircuitState where
  | Closed
  | Open
  | HalfOpen
  deriving DecidableEq, Repr

/-- Circuit breaker (struct CircuitBreaker in router/health.rs). The
counters are u64 atomics, modelled with explicit wrap at 2^64. -/
structure CircuitBreaker where
  state : CircuitState
  consecutiveFailures : Nat
  consecutiveSuccesses : Nat
  failureThreshold : Nat
  successThreshold : Nat
  retryTimeoutMs : Nat
  deriving DecidableEq, Repr

/-- CircuitBreaker::new. -/
def CircuitBreaker.new (failureThreshold successThreshold retryTimeoutMs : Nat) :
    CircuitBreaker :=
  { state := .Closed
    consecutiveFailures := 0
    consecutiveSuccesses := 0
    failureThreshold := failureThreshold
    successThreshold := successThreshold
    retryTimeoutMs := retryTimeoutMs }

/-- CircuitBreaker::record_success: reset the failure counter, bump the
success counter, then in HalfOpen close once the success threshold is
reached, and in Open move to HalfOpen. -/
def CircuitBreaker.recordSuccess (b : CircuitBreaker) : CircuitBreaker :=
  let successes := (b.consecutiveSuccesses + 1) % u64Mod
  let b1 := { b with consecutiveFailures := 0, consecutiveSuccesses := successes }
  match b1.state with
  | .HalfOpen =>
    if b1.successThreshold ≤ successes then
      { b1 with state := .Closed, consecutiveSuccesses := 0 }
    else b1
  | .Open => { b1 with state := .HalfOpen }
  | .Closed => b1

/-- CircuitBreaker::record_failure: reset the success counter, bump the
failure counter, and open the circuit exactly when the bumped counter has
reached failure_threshold. -/
def CircuitBreaker.recordFailure (b : CircuitBreaker) : CircuitBreaker :=
  let failures := (b.consecutiveFailures + 1) % u64Mod
  let b1 := { b with consecutiveSuccesses := 0, consecutiveFailures := failures }
  if b1.failureThreshold ≤ failures then { b1 with state := .Open } else b1

/-- CircuitBreaker::should_allow_request. -/
def CircuitBreaker.shouldAllowRequest (b : CircuitBreaker) : Bool :=
  match b.state with
  | .Closed => true
  | .HalfOpen => true
  | .Open => false

/-- CircuitBreaker::try_half_open. -/
def CircuitBreaker.tryHalfOpen (b : CircuitBreaker) : CircuitBreaker :=
  if b.state = .Open then
    { b with state := .HalfOpen, consecutiveSuccesses := 0 }
  else b

/-- CircuitBreaker::health_status. -/
def CircuitBreaker.healthStatusOf (b : CircuitBreaker) : HealthStatus :=
  match b.state with
  | .Closed => .Healthy
  | .HalfOpen => .Degraded
  | .Open => .Unhealthy

/-- Pool of redundant Cage instances for one site (struct CagePool in
cage/pool.rs). -/
structure CagePool where
  siteId : String
  cages : List Cage
  config : CageConfig
  targetReplicas : Nat
  nextCageId : Nat
  roundRobinIndex : Nat
  deriving DecidableEq, Repr

/-- CagePool::spawn_cage, success path of engine creation, Cage::new and
Cage::initialize: a fresh id from the monotonic counter, the new Running
cage appended to the replica list. -/
def CagePool.spawnCage (p : CagePool) : CagePool :=
  let cage :=
    (Cage.new p.nextCageId (p.siteId ++ "-cage-" ++ toString p.nextCageId)
      p.config).initializeOk
  { p with nextCageId := (p.nextCageId + 1) % u64Mod
           cages := p.cages ++ [cage] }

/-- Iterated spawn_cage, as performed by the loops in CagePool::new and
CagePool::maintain_replicas with every spawn succeeding. -/
def CagePool.spawnN : CagePool → Nat → CagePool
  | p, 0 => p
  | p, n + 1 => CagePool.spawnN p.spawnCage n

/-- CagePool::new with every initial spawn succeeding. -/
def CagePool.new (siteId : String) (config : CageConfig)
    (targetReplicas : Nat) : CagePool :=
  CagePool.spawnN
    { siteId := siteId
      cages := []
      config := config
      targetReplicas := targetReplicas
      nextCageId := 0
      roundRobinIndex := 0 }
    targetReplicas

/-- Whether the retain predicate of CagePool::remove_crashed_cages keeps a
cage: every state other than Crashed and Terminated is kept. -/
def keepCage (c : Cage) : Bool :=
  match c.state with
  | .Crashed => false
  | .Terminated => false
  | _ => true

/-- CagePool::remove_crashed_cages: drop Crashed and Terminated entries and
return how many were removed. -/
def CagePool.removeCrashedCages (p : CagePool) : CagePool × Nat :=
  let kept := p.cages.filter keepCage
  ({ p with cages := kept }, p.cages.length - kept.length)

/-- CagePool::maintain_replicas with every spawn succeeding: remove crashed
cages, then spawn the difference when the list is below target_replicas. -/
def CagePool.maintainReplicas (p : CagePool) : CagePool :=
  let p1 := p.removeCrashedCages.1
  if p1.cages.length < p1.targetReplicas then
    p1.spawnN (p1.targetReplicas - p1.cages.length)
  else p1

/-- CagePool::get_cage_round_robin: on a non-empty list, bump the atomic
cursor, then scan forward from cursor mod size, wrapping once, for the
first cage whose healthy flag is set. Returns the selected index with the
cage. -/
def CagePool.getCageRoundRobin (p : CagePool) : CagePool × Option (Nat × Cage) :=
  let n := p.cages.length
  if n = 0 then (p, none)
  else
    let start := p.roundRobinIndex % n
    let p1 := { p with roundRobinIndex := (p.roundRobinIndex + 1) % u64Mod }
    match (List.range n).find?
        (fun off => ((p.cages.get? ((start + off) % n)).map Cage.isHealthy).getD false) with
    | some off =>
      match p.cages.get? ((start + off) % n) with
      | some c => (p1, some ((start + off) % n, c))
      | none => (p1, none)
    | none => (p1, none)

/-- One step of the least-connected scan: a healthy cage replaces the
current best exactly when its active count is strictly below the running
minimum (which starts at the u64 maximum). -/
def lcStep (acc : Option (Nat × Cage) × Nat) (ic : Nat × Cage) :
    Option (Nat × Cage) × Nat :=
  if ic.2.isHealthy = true ∧ ic.2.activeRequests < acc.2 then
    (some ic, ic.2.activeRequests)
  else acc

/-- CagePool::get_cage_least_connected: linear scan for the healthy cage
with the fewest active requests, first winner on ties. -/
def CagePool.getCageLeastConnected (p : CagePool) : Option (Nat × Cage) :=
  (p.cages.enum.foldl lcStep (none, u64Max)).1

/-- Pool health snapshot (struct PoolHealthStats in cage/pool.rs). -/
structure PoolHealthStats where
  siteId : String
  totalCages : Nat
  healthyCages : Nat
  crashedCages : Nat
  initializingCages : Nat
  deriving DecidableEq, Repr

/-- CagePool::health_stats: a cage counts as healthy when its state is
Running and its healthy flag is set. -/
def CagePool.healthStats (p : CagePool) : PoolHealthStats :=
  { siteId := p.siteId
    totalCages := p.cages.length
    healthyCages :=
      (p.cages.filter (fun c =>
        match c.state with
        | .Running => c.isHealthy
        | _ => false)).length
    crashedCages :=
      (p.cages.filter (fun c =>
        match c.state with
        | .Crashed => true
        | _ => false)).length
    initializingCages :=
      (p.cages.filter (fun c =>
        match c.state with
        | .Initializing => true
        | _ => false)).length }

/-- PoolHealthStats::is_healthy. -/
def PoolHealthStats.isHealthy (s : PoolHealthStats) : Bool :=
  decide (0 < s.healthyCages)

/-- CagePool::size. -/
def CagePool.size (p : CagePool) : Nat := p.cages.length

/-- Load balancing strategy (enum LoadBalancingStrategy in router/mod.rs). -/
inductive LoadBalancingStrategy where
  | RoundRobin
  | LeastConnected
  deriving DecidableEq, Repr

/-- Router configuration (struct RouterConfig in router/mod.rs). -/
structure RouterConfig where
  strategy : LoadBalancingStrategy
  healthCheckEnabled : Bool
  healthCheckIntervalSecs : Nat
  deriving DecidableEq, Repr

/-- Default router configuration. -/
def RouterConfig.default : RouterConfig :=
  { strategy := .RoundRobin
    healthCheckEnabled := true
    healthCheckIntervalSecs := 5 }

/-- Router state (struct Router in router/mod.rs): the site map and the
three atomic request counters. -/
structure Router where
  pools : List (String × CagePool)
  config : RouterConfig
  totalRequests : Nat
  successfulRequests : Nat
  failedRequests : Nat
  deriving DecidableEq, Repr

/-- Router::new. -/
def Router.new (config : RouterConfig) : Router :=
  { pools := []
    config := config
    totalRequests := 0
    successfulRequests := 0
    failedRequests := 0 }

/-- Key lookup in the site map (DashMap::get). -/
def poolsLookup (pools : List (String × CagePool)) (siteId : String) :
    Option CagePool :=
  (pools.find? (fun e => e.1 == siteId)).map Prod.snd

/-- Write back the pool stored under a key of the site map. -/
def poolsUpdate (pools : List (String × CagePool)) (siteId : String)
    (p : CagePool) : List (String × CagePool) :=
  pools.map (fun e => if e.1 == siteId then (e.1, p) else e)

/-- Router::register_pool (DashMap::insert: replace or append). -/
def Router.registerPool (r : Router) (siteId : String) (p : CagePool) : Router :=
  if (poolsLookup r.pools siteId).isSome then
    { r with pools := poolsUpdate r.pools siteId p }
  else
    { r with pools := r.pools ++ [(siteId, p)] }

/-- Router::unregister_pool. -/
def Router.unregisterPool (r : Router) (siteId : String) : Router :=
  { r with pools := r.pools.filter (fun e => !(e.1 == siteId)) }

/-- An already-decoded request as the Router sees it. -/
structure HttpRequest where
  method : String
  uri : String
  host : Option String
  deriving DecidableEq, Repr

/-- A transport-level response: status code and body. -/
structure HttpResponse where
  status : Nat
  body : String
  deriving DecidableEq, Repr

/-- Router::extract_site_id: the Host header when present, otherwise the
literal default-site. -/
def extractSiteId (req : HttpRequest) : String :=
  req.host.getD "default-site"

/-- Router::serialize_request. -/
def serializeRequest (req : HttpRequest) : String :=
  "\x7b\"method\":\"" ++ req.method ++ "\",\"uri\":\"" ++ req.uri ++ "\"\x7d"

/-- Router::error_response. -/
def errorResponse (status : Nat) (message : String) : HttpResponse :=
  { status := status
    body := "\x7b\"error\":\"" ++ message ++ "\",\"status\":" ++
      toString status ++ "\x7d" }

/-- Strategy dispatch inside Router::route_request. -/
def selectCage (strategy : LoadBalancingStrategy) (p : CagePool) :
    CagePool × Option (Nat × Cage) :=
  match strategy with
  | .RoundRobin => p.getCageRoundRobin
  | .LeastConnected => (p, p.getCageLeastConnected)

/-- Router::route_request. The parameter interveningCrash models the one
suspension point between selection and invocation: when true, another task
has run mark_crashed on the selected cage before execute_request observes
it. -/
def Router.routeRequest (r : Router) (req : HttpRequest)
    (interveningCrash : Bool) : Router × HttpResponse :=
  let r0 := { r with totalRequests := (r.totalRequests + 1) % u64Mod }
  let siteId := extractSiteId req
  match poolsLookup r0.pools siteId with
  | none =>
    ({ r0 with failedRequests := (r0.failedRequests + 1) % u64Mod },
     errorResponse 404 "Site not found")
  | some p =>
    let ps := selectCage r0.config.strategy p
    match ps.2 with
    | none =>
      ({ r0 with pools := poolsUpdate r0.pools siteId ps.1
                 failedRequests := (r0.failedRequests + 1) % u64Mod },
       errorResponse 503 "No healthy instances available")
    | some ic =>
      let c1 := if interveningCrash then ic.2.markCrashed else ic.2
      match c1.executeRequest with
      | .ok res =>
        ({ r0 with
            pools := poolsUpdate r0.pools siteId
              { ps.1 with cages := ps.1.cages.set ic.1 res.1 }
            successfulRequests := (r0.successfulRequests + 1) % u64Mod },
         { status := 200, body := res.2 })
      | .error _ =>
        ({ r0 with
            pools := poolsUpdate r0.pools siteId
              { ps.1 with cages := ps.1.cages.set ic.1 c1 }
            failedRequests := (r0.failedRequests + 1) % u64Mod },
         errorResponse 500 "Request execution failed")

/-- Router::stats snapshot (struct RouterStats). -/
structure RouterStats where
  totalRequests : Nat
  successfulRequests : Nat
  failedRequests : Nat
  activePools : Nat
  deriving DecidableEq, Repr

/-- Router::stats. -/
def Router.statsOf (r : Router) : RouterStats :=
  { totalRequests := r.totalRequests
    successfulRequests := r.successfulRequests
    failedRequests := r.failedRequests
    activePools := r.pools.length }

/-- Supervisor configuration (struct SupervisorConfig in supervisor/mod.rs). -/
structure SupervisorConfig where
  monitoringIntervalSecs : Nat
  minRespawnDelayMs : Nat
  maxRespawnDelayMs : Nat
  maxRespawnAttempts : Nat
  deriving DecidableEq, Repr

/-- Default supervisor configuration. -/
def SupervisorConfig.default : SupervisorConfig :=
  { monitoringIntervalSecs := 5
    minRespawnDelayMs := 1000
    maxRespawnDelayMs := 60000
    maxRespawnAttempts := 5 }

/-- One supervised record (struct SupervisedPool in supervisor/mod.rs):
pool handle, module bytes for respawns, the u32 attempt counter and the
optional timestamp (in ms) of the last respawn. -/
structure SupervisedPool where
  pool : CagePool
  wasmBytes : List Nat
  respawnAttempts : Nat
  lastRespawn : Option Nat
  deriving DecidableEq, Repr

/-- Supervisor::calculate_backoff in u64 arithmetic:
min(min_ms * 2^attempts, max_ms) where both the power and the product wrap
at 2^64. -/
def calculateBackoff (attempts minMs maxMs : Nat) : Nat :=
  min ((minMs * (2 ^ attempts % u64Mod)) % u64Mod) maxMs

/-- Supervisor::heal_pool at time now (ms), with every spawn succeeding:
give up once attempts reached max_respawn_attempts; defer while the backoff
delay since the last respawn has not elapsed; otherwise maintain replicas,
bump the attempt counter, record the timestamp and bump the global healing
counter. -/
def Supervisor.healPool (s : SupervisedPool) (cfg : SupervisorConfig)
    (now : Nat) (healingEvents : Nat) : SupervisedPool × Nat :=
  if cfg.maxRespawnAttempts ≤ s.respawnAttempts then (s, healingEvents)
  else
    let delayMs := calculateBackoff s.respawnAttempts cfg.minRespawnDelayMs
      cfg.maxRespawnDelayMs
    let proceed :=
      match s.lastRespawn with
      | some t => decide (delayMs ≤ now - t)
      | none => true
    if proceed then
      ({ s with pool := s.pool.maintainReplicas
                respawnAttempts := (s.respawnAttempts + 1) % u32Mod
                lastRespawn := some now },
       (healingEvents + 1) % u64Mod)
    else (s, healingEvents)

/-- One supervised record's share of a Supervisor sweep (the loop body in
Supervisor::start): read health_stats and heal exactly when crashed > 0 or
healthy == 0. -/
def Supervisor.sweepStep (s : SupervisedPool) (cfg : SupervisorConfig)
    (now : Nat) (healingEvents : Nat) : SupervisedPool × Nat :=
  let stats := s.pool.healthStats
  if 0 < stats.crashedCages ∨ stats.healthyCages = 0 then
    Supervisor.healPool s cfg now healingEvents
  else (s, healingEvents)

/-- Canary status (enum CanaryStatus in deployment/mod.rs). -/
inductive CanaryStatus where
  | Testing
  | RollingOut
  | Completed
  | RolledBack
  deriving DecidableEq, Repr

/-- One canary record (struct CanaryDeployment in deployment/mod.rs). The
f64 traffic percentage is modelled as a rational: it is only ever stored,
clamped with min, or compared, never rounded. -/
structure CanaryDeployment where
  siteId : String
  canaryId : Nat
  betaSecret : String
  trafficPercentage : ℚ
  status : CanaryStatus
  wasmModule : List Nat
  deriving DecidableEq, Repr

/-- CanaryManager::create_canary: status Testing and zero traffic. The
random uuid and beta secret are taken as parameters. -/
def CanaryManager.createCanary (siteId : String) (canaryId : Nat)
    (betaSecret : String) (wasmModule : List Nat) : CanaryDeployment :=
  { siteId := siteId
    canaryId := canaryId
    betaSecret := betaSecret
    trafficPercentage := 0
    status := .Testing
    wasmModule := wasmModule }

/-- CanaryManager::promote_to_production: requires status Testing, then
sets RollingOut at 10 percent traffic. -/
def CanaryManager.promoteToProduction (c : CanaryDeployment) :
    Except String CanaryDeployment :=
  if c.status ≠ .Testing then
    .error "Canary must be in Testing status to promote"
  else
    .ok { c with status := .RollingOut, trafficPercentage := 1 / 10 }

/-- CanaryManager::increase_traffic: stores percentage.min(1.0) - an upper
clamp only. -/
def CanaryManager.increaseTraffic (c : CanaryDeployment) (percentage : ℚ) :
    CanaryDeployment :=
  { c with trafficPercentage := min percentage 1 }

/-- CanaryManager::complete_deployment. -/
def CanaryManager.completeDeployment (c : CanaryDeployment) : CanaryDeployment :=
  { c with status := .Completed, trafficPercentage := 1 }

/-- CanaryManager::rollback. -/
def CanaryManager.rollback (c : CanaryDeployment) (_reason : String) :
    CanaryDeployment :=
  { c with status := .RolledBack, trafficPercentage := 0 }

/-- Per-canary error statistics (struct ErrorStats in deployment/mod.rs). -/
structure ErrorStats where
  totalRequests : Nat
  errorCount : Nat
  deriving DecidableEq, Repr

/-- ErrorRateTracker::record on an existing record. -/
def ErrorRateTracker.record (s : ErrorStats) (isError : Bool) : ErrorStats :=
  { s with totalRequests := (s.totalRequests + 1) % u64Mod
           errorCount := if isError then (s.errorCount + 1) % u64Mod
             else s.errorCount }

/-- ErrorRateTracker::error_rate: zero when the canary id has no record and
zero when total_requests is zero, otherwise the exact quotient. -/
def ErrorRateTracker.errorRate (stats : Option ErrorStats) : ℚ :=
  match stats with
  | none => 0
  | some s =>
    if s.totalRequests = 0 then 0
    else (s.errorCount : ℚ) / (s.totalRequests : ℚ)

/-- CanaryManager::check_error_rate on a site whose canary exists, given
the looked-up error-stats record: rollback and return true exactly when the
error rate exceeds 5 percent. -/
def CanaryManager.checkErrorRate (stats : Option ErrorStats)
    (c : CanaryDeployment) : Bool × CanaryDeployment :=
  if (5 : ℚ) / 100 < ErrorRateTracker.errorRate stats then
    (true, CanaryManager.rollback c "High error rate detected")
  else (false, c)

/-- A Running, healthy cage with default configuration, as produced by a
successful spawn. -/
def runningCage : Cage :=
  { id := 0
    name := "c0"
    state := .Running
    config := CageConfig.default
    requestCount := 0
    activeRequests := 0
    healthy := true }

/-- A one-replica pool holding runningCage. -/
def healthyPool : CagePool :=
  { siteId := "s"
    cages := [runningCage]
    config := CageConfig.default
    targetReplicas := 1
    nextCageId := 1
    roundRobinIndex := 0 }

/-- A supervised record for healthyPool whose attempt counter has reached
the default maximum. -/
def exhaustedRecord : SupervisedPool :=
  { pool := healthyPool
    wasmBytes := []
    respawnAttempts := 5
    lastRespawn := none }

theorem keepCage_true {c : Cage} (h1 : c.state ≠ CageState.Crashed)
    (h2 : c.state ≠ CageState.Terminated) : keepCage c = true := by
  unfold keepCage
  rcases h : c.state with _ | _ | _ | _ | _ <;> simp_all

theorem filter_keep_of_all {l : List Cage}
    (h : ∀ c ∈ l, c.state ≠ CageState.Crashed ∧ c.state ≠ CageState.Terminated) :
    l.filter keepCage = l :=
  List.filter_eq_self.mpr (fun c hc => keepCage_true (h c hc).1 (h c hc).2)

theorem removeCrashed_id {p : CagePool}
    (h : ∀ c ∈ p.cages, c.state ≠ CageState.Crashed ∧ c.state ≠ CageState.Terminated) :
    p.removeCrashedCages.1 = p := by
  show ({ p with cages := p.cages.filter keepCage } : CagePool) = p
  rw [filter_keep_of_all h]

theorem spawnN_cages_length (p : CagePool) (n : Nat) :
    (p.spawnN n).cages.length = p.cages.length + n := by
  induction n generalizing p with
  | zero => rfl
  | succ n ih =>
    show (p.spawnCage.spawnN n).cages.length = p.cages.length + (n + 1)
    rw [ih]
    simp [CagePool.spawnCage]
    omega

theorem spawnN_mem (p : CagePool) (n : Nat) :
    ∀ c ∈ (p.spawnN n).cages, c ∈ p.cages ∨ c.state = CageState.Running := by
  induction n generalizing p with
  | zero => exact fun c hc => Or.inl hc
  | succ n ih =>
    intro c hc
    rcases ih p.spawnCage c hc with h | h
    · simp [CagePool.spawnCage] at h
      rcases h with h | h
      · exact Or.inl h
      · right
        rw [h]
        rfl
    · exact Or.inr h

theorem maintain_no_crashed (p : CagePool)
    (h : ∀ c ∈ p.cages, c.state ≠ CageState.Crashed ∧ c.state ≠ CageState.Terminated) :
    p.maintainReplicas =
      if p.cages.length < p.targetReplicas then
        p.spawnN (p.targetReplicas - p.cages.length)
      else p := by
  unfold CagePool.maintainReplicas
  rw [removeCrashed_id h]

/-- C1 (counterexample to the claim as stated): a freshly constructed Cage
already reports is_healthy = true while its state is still Initializing,
not Running. -/
theorem c1_new_cage_healthy_but_not_running :
    (Cage.new 1 "cage-1" CageConfig.default).isHealthy = true ∧
    (Cage.new 1 "cage-1" CageConfig.default).state ≠ CageState.Running := by
  exact ⟨rfl, by decide⟩

/-- C1 (amended): for every Cage reachable through new, initialize,
execute_request, health_check, mark_crashed and terminate, the healthy flag
is true only while the state is Initializing or Running; the implication
healthy implies Running fails only in the initial Initializing window,
because new constructs the flag as true. -/
theorem cage_healthy_state_invariant :
    ∀ c : Cage, ReachableCage c → c.healthy = true →
      c.state = CageState.Initializing ∨ c.state = CageState.Running := by
  intro c h
  induction h with
  | new id name config => exact fun _ => Or.inl rfl
  | initStep hr ih => exact fun _ => Or.inr rfl
  | @health c0 hr ih =>
    intro hh
    rcases hs : c0.state with _ | _ | _ | _ | _
    · have he : c0.healthCheck = (c0, false) := by simp [Cage.healthCheck, hs]
      rw [he] at hh ⊢
      exact Or.inl hs
    · have he : c0.healthCheck = ({ c0 with healthy := true }, true) := by
        simp [Cage.healthCheck, hs]
      rw [he]
      exact Or.inr hs
    · have he : c0.healthCheck = ({ c0 with healthy := false }, false) := by
        simp [Cage.healthCheck, hs]
      rw [he] at hh
      simp at hh
    · have he : c0.healthCheck = ({ c0 with healthy := false }, false) := by
        simp [Cage.healthCheck, hs]
      rw [he] at hh
      simp at hh
    · have he : c0.healthCheck = ({ c0 with healthy := false }, false) := by
        simp [Cage.healthCheck, hs]
      rw [he] at hh
      simp at hh
  | @execBegin c0 c1 hr heq ih =>
    intro hh
    unfold Cage.executeRequestBegin at heq
    by_cases hhe : c0.isHealthy = true
    · rw [if_pos hhe] at heq
      injection heq with h2
      rw [← h2] at hh ⊢
      exact ih hh
    · rw [if_neg hhe] at heq
      simp at heq
  | @execFinish c0 hr ih => exact fun hh => ih hh
  | @crashed c0 hr ih =>
    intro hh
    simp [Cage.markCrashed] at hh
  | @term c0 hr ih =>
    intro hh
    simp [Cage.terminateOk] at hh

/-- C1 (witness): the amended invariant applied to a concrete freshly
constructed Cage. -/
theorem c1_witness_new_cage :
    (Cage.new 2 "w" CageConfig.default).state = CageState.Initializing ∨
    (Cage.new 2 "w" CageConfig.default).state = CageState.Running :=
  cage_healthy_state_invariant _ (ReachableCage.new 2 "w" CageConfig.default) rfl

/-- C2 (counterexample to the claim as stated): with failure_threshold = 3,
a breaker opened by three failures, moved to HalfOpen and given one
success sits in HalfOpen with zero consecutive failures; one record_failure
leaves it in HalfOpen and still allowing requests, instead of reopening. -/
theorem c2_halfopen_single_failure_not_reopening :
    ((((((CircuitBreaker.new 3 2 10000).recordFailure).recordFailure).recordFailure).tryHalfOpen).recordSuccess).state
      = CircuitState.HalfOpen ∧
    (((((((CircuitBreaker.new 3 2 10000).recordFailure).recordFailure).recordFailure).tryHalfOpen).recordSuccess).recordFailure).state
      ≠ CircuitState.Open ∧
    (((((((CircuitBreaker.new 3 2 10000).recordFailure).recordFailure).recordFailure).tryHalfOpen).recordSuccess).recordFailure).shouldAllowRequest
      = true := by
  decide

/-- C2 (amended): in HalfOpen, record_failure opens the breaker exactly
when the bumped consecutive-failure counter reaches failure_threshold;
below the threshold the breaker stays HalfOpen and keeps allowing
requests. -/
theorem halfopen_failure_opens_iff_threshold :
    ∀ b : CircuitBreaker, b.state = CircuitState.HalfOpen →
      (b.failureThreshold ≤ (b.consecutiveFailures + 1) % u64Mod →
        b.recordFailure.state = CircuitState.Open ∧
        b.recordFailure.shouldAllowRequest = false) ∧
      ((b.consecutiveFailures + 1) % u64Mod < b.failureThreshold →
        b.recordFailure.state = CircuitState.HalfOpen ∧
        b.recordFailure.shouldAllowRequest = true) := by
  intro b hb
  unfold CircuitBreaker.recordFailure
  constructor
  · intro hth
    rw [if_pos hth]
    exact ⟨rfl, rfl⟩
  · intro hlt
    rw [if_neg (Nat.not_le.mpr hlt)]
    refine ⟨hb, ?_⟩
    simp [CircuitBreaker.shouldAllowRequest, hb]

/-- C2 (witness): with failure_threshold = 1 a single failure in HalfOpen
does reopen. -/
theorem c2_witness_threshold_one :
    (CircuitBreaker.recordFailure
      { state := CircuitState.HalfOpen, consecutiveFailures := 0,
        consecutiveSuccesses := 0, failureThreshold := 1,
        successThreshold := 2, retryTimeoutMs := 1000 }).state = CircuitState.Open ∧
    (CircuitBreaker.recordFailure
      { state := CircuitState.HalfOpen, consecutiveFailures := 0,
        consecutiveSuccesses := 0, failureThreshold := 1,
        successThreshold := 2, retryTimeoutMs := 1000 }).shouldAllowRequest = false :=
  (halfopen_failure_opens_iff_threshold _ rfl).1 (by decide)

set_option maxRecDepth 4000 in
/-- C3: execute_request has no check of max_concurrent_requests. Starting
from a Running, healthy Cage with the default configuration (limit 100),
101 request entries all succeed and leave 101 requests in flight; no
over-limit error exists in the code. -/
theorem c3_no_concurrency_limit_check :
    execBeginN runningCage 101 = Except.ok { runningCage with activeRequests := 101 } ∧
    runningCage.config.maxConcurrentRequests = 100 ∧
    runningCage.config.maxConcurrentRequests < 101 := by
  exact ⟨rfl, rfl, by decide⟩

/-- C4 (counterexample to the claim as stated): a sweep that observes a
healthy pool (no crashed cages, at least one healthy cage) leaves a
supervised record whose attempt counter is at the maximum completely
unchanged; nothing resets respawn_attempts to zero. -/
theorem c4_healthy_sweep_does_not_reset :
    (exhaustedRecord.pool.healthStats).crashedCages = 0 ∧
    0 < (exhaustedRecord.pool.healthStats).healthyCages ∧
    (Supervisor.sweepStep exhaustedRecord SupervisorConfig.default 100000 0).1.respawnAttempts = 5 ∧
    (Supervisor.sweepStep exhaustedRecord SupervisorConfig.default 100000 0).1.respawnAttempts ≠ 0 := by
  decide

/-- C4 (amended): a Supervisor sweep that observes the pool healthy
(crashed_cages = 0 and healthy_cages > 0) performs no healing and leaves
the supervised record, including respawn_attempts, exactly as it was; the
code contains no reset of the attempt counter. -/
theorem healthy_sweep_leaves_record_unchanged :
    ∀ (s : SupervisedPool) (cfg : SupervisorConfig) (now he : Nat),
      (s.pool.healthStats).crashedCages = 0 →
      0 < (s.pool.healthStats).healthyCages →
      Supervisor.sweepStep s cfg now he = (s, he) := by
  intro s cfg now he hc hh
  have hcond : ¬(0 < (s.pool.healthStats).crashedCages ∨
      (s.pool.healthStats).healthyCages = 0) := by
    rintro (h | h)
    · omega
    · omega
  simp only [Supervisor.sweepStep]
  rw [if_neg hcond]

/-- C4 (witness): the amended statement applied to the concrete exhausted
record over a healthy pool. -/
theorem c4_witness_record_unchanged :
    Supervisor.sweepStep exhaustedRecord SupervisorConfig.default 100000 7 =
      (exhaustedRecord, 7) :=
  healthy_sweep_leaves_record_unchanged exhaustedRecord SupervisorConfig.default
    100000 7 (by decide) (by decide)

/-- C5 (counterexample to the claim as stated): increase_traffic only
clamps from above, so a negative argument is stored as-is, leaving the
traffic percentage outside the interval from 0 to 1. -/
theorem c5_negative_traffic_stored :
    (CanaryManager.increaseTraffic
      (CanaryManager.createCanary "s" 2 "b" []) (-1)).trafficPercentage = -1 ∧
    ¬(0 ≤ (CanaryManager.increaseTraffic
      (CanaryManager.createCanary "s" 2 "b" []) (-1)).trafficPercentage) := by
  have hmin : min (-1 : ℚ) 1 = -1 := min_eq_left (by norm_num)
  constructor
  · show min (-1 : ℚ) 1 = -1
    exact hmin
  · show ¬(0 ≤ min (-1 : ℚ) 1)
    rw [hmin]
    norm_num

/-- C5 (amended): create_canary, promote_to_production, complete_deployment
and rollback store percentages 0, 1/10, 1 and 0, all inside the interval
from 0 to 1; increase_traffic stores min(p, 1), an upper clamp only, so
its result lies in the interval exactly when the argument is
nonnegative. -/
theorem canary_traffic_amended :
    ∀ (c : CanaryDeployment) (p : ℚ), 0 ≤ p →
      (CanaryManager.increaseTraffic c p).trafficPercentage = min p 1 ∧
      0 ≤ (CanaryManager.increaseTraffic c p).trafficPercentage ∧
      (CanaryManager.increaseTraffic c p).trafficPercentage ≤ 1 ∧
      (CanaryManager.createCanary c.siteId c.canaryId c.betaSecret c.wasmModule).trafficPercentage = 0 ∧
      (∀ c2, CanaryManager.promoteToProduction c = Except.ok c2 →
        c2.trafficPercentage = 1 / 10 ∧ (0 : ℚ) ≤ 1 / 10 ∧ (1 : ℚ) / 10 ≤ 1) ∧
      (CanaryManager.completeDeployment c).trafficPercentage = 1 ∧
      (CanaryManager.rollback c "reason").trafficPercentage = 0 := by
  intro c p hp
  refine ⟨rfl, ?_, ?_, rfl, ?_, rfl, rfl⟩
  · show 0 ≤ min p 1
    exact le_min hp (by norm_num)
  · show min p 1 ≤ 1
    exact min_le_right p 1
  · intro c2 h2
    unfold CanaryManager.promoteToProduction at h2
    by_cases hs : c.status ≠ CanaryStatus.Testing
    · rw [if_pos hs] at h2
      simp at h2
    · rw [if_neg hs] at h2
      injection h2 with h3
      rw [← h3]
      refine ⟨rfl, by norm_num, by norm_num⟩

/-- C5 (witness): the amended statement at a concrete canary and a
nonnegative argument. -/
theorem c5_witness_half_traffic :
    (CanaryManager.increaseTraffic
      (CanaryManager.createCanary "s" 3 "b" []) (1 / 2)).trafficPercentage =
      min (1 / 2 : ℚ) 1 :=
  (canary_traffic_amended (CanaryManager.createCanary "s" 3 "b" []) (1 / 2)
    (by norm_num)).1

/-- C8 (counterexample to the claim as stated): calculate_backoff works in
u64 arithmetic, so at attempts = 64 with min_delay = 1 the power wraps to 0
and the function returns 0, while exact integer arithmetic would give
min(2^64, 60000) = 60000. -/
theorem c8_backoff_overflow_at_64 :
    calculateBackoff 64 1 60000 = 0 ∧
    min (1 * 2 ^ 64) 60000 = 60000 ∧
    calculateBackoff 64 1 60000 ≠ min (1 * 2 ^ 64) 60000 := by
  decide

/-- C8 (amended): whenever min_delay times 2^attempts fits in a u64, the
backoff computation returns exactly min(min_delay * 2^attempts, max_delay);
and heal_pool performs no respawn while the time since the previous respawn
is below that backoff delay. -/
theorem backoff_exact_and_defer :
    ∀ (attempts minMs maxMs : Nat) (s : SupervisedPool)
      (cfg : SupervisorConfig) (now he t : Nat),
      (minMs * 2 ^ attempts < u64Mod →
        calculateBackoff attempts minMs maxMs = min (minMs * 2 ^ attempts) maxMs) ∧
      (s.lastRespawn = some t →
        now - t < calculateBackoff s.respawnAttempts cfg.minRespawnDelayMs
          cfg.maxRespawnDelayMs →
        Supervisor.healPool s cfg now he = (s, he)) := by
  intro attempts minMs maxMs s cfg now he t
  constructor
  · intro hov
    unfold calculateBackoff
    rcases Nat.eq_zero_or_pos minMs with h0 | hpos
    · subst h0
      simp
    · have hpow : 2 ^ attempts < u64Mod :=
        lt_of_le_of_lt (Nat.le_mul_of_pos_left (2 ^ attempts) hpos) hov
      rw [Nat.mod_eq_of_lt hpow, Nat.mod_eq_of_lt hov]
  · intro hlast hlt
    by_cases hmax : cfg.maxRespawnAttempts ≤ s.respawnAttempts
    · simp only [Supervisor.healPool]
      rw [if_pos hmax]
    · simp only [Supervisor.healPool]
      rw [if_neg hmax]
      simp only [hlast]
      rw [decide_eq_false (Nat.not_le.mpr hlt)]
      simp

/-- C8 (witness): the exact formula at small inputs, and a concrete
deferred healing step inside the backoff window. -/
theorem c8_witness_small_inputs :
    calculateBackoff 3 1000 60000 = min (1000 * 2 ^ 3) 60000 ∧
    Supervisor.healPool { exhaustedRecord with respawnAttempts := 1, lastRespawn := some 0 }
      SupervisorConfig.default 100 0 =
      ({ exhaustedRecord with respawnAttempts := 1, lastRespawn := some 0 }, 0) :=
  ⟨(backoff_exact_and_defer 3 1000 60000 exhaustedRecord SupervisorConfig.default
      0 0 0).1 (by decide),
   (backoff_exact_and_defer 0 0 0
      { exhaustedRecord with respawnAttempts := 1, lastRespawn := some 0 }
      SupervisorConfig.default 100 0 0).2 rfl (by decide)⟩

/-- C9: record_success on a breaker in the Open state transitions it to
HalfOpen, without try_half_open and regardless of the retry timeout. -/
theorem open_record_success_goes_halfopen :
    ∀ b : CircuitBreaker, b.state = CircuitState.Open →
      b.recordSuccess.state = CircuitState.HalfOpen := by
  intro b hb
  simp [CircuitBreaker.recordSuccess, hb]

/-- C9 (witness): a concrete Open breaker moved to HalfOpen by one
success. -/
theorem c9_witness_open_breaker :
    (CircuitBreaker.recordSuccess
      { state := CircuitState.Open, consecutiveFailures := 3,
        consecutiveSuccesses := 0, failureThreshold := 3,
        successThreshold := 2, retryTimeoutMs := 1000 }).state = CircuitState.HalfOpen :=
  open_record_success_goes_halfopen _ rfl

/-- C10: when the error-stats record is missing or has total_requests = 0,
error_rate is exactly 0 and check_error_rate returns false leaving the
canary untouched - the division is guarded and no rollback happens before
the first recorded request. -/
theorem error_rate_guarded_zero :
    ∀ (stats : Option ErrorStats) (c : CanaryDeployment),
      (stats = none ∨ ∃ s, stats = some s ∧ s.totalRequests = 0) →
      ErrorRateTracker.errorRate stats = 0 ∧
      CanaryManager.checkErrorRate stats c = (false, c) := by
  intro stats c h
  have hrate : ErrorRateTracker.errorRate stats = 0 := by
    rcases h with h | ⟨s, hs, h0⟩
    · subst h
      rfl
    · subst hs
      simp [ErrorRateTracker.errorRate, h0]
  refine ⟨hrate, ?_⟩
  unfold CanaryManager.checkErrorRate
  rw [hrate]
  have hno : ¬((5 : ℚ) / 100 < 0) := by norm_num
  rw [if_neg hno]

/-- C10 (witness): a canary with no error-stats record is not rolled
back. -/
theorem c10_witness_no_record :
    ErrorRateTracker.errorRate none = 0 ∧
    CanaryManager.checkErrorRate none (CanaryManager.createCanary "s" 1 "b" []) =
      (false, CanaryManager.createCanary "s" 1 "b" []) :=
  error_rate_guarded_zero none (CanaryManager.createCanary "s" 1 "b" []) (Or.inl rfl)

/-- C6: route_request returns 404 when no pool is registered for the
derived site key, 503 when selection yields no cage, 500 when the selected
cage's execute_request errors; it always bumps total_requests and exactly
one of successful_requests or failed_requests. -/
theorem route_request_status_and_counters :
    ∀ (r : Router) (req : HttpRequest) (crash : Bool),
      (poolsLookup r.pools (extractSiteId req) = none →
        (r.routeRequest req crash).2.status = 404) ∧
      (∀ p, poolsLookup r.pools (extractSiteId req) = some p →
        (selectCage r.config.strategy p).2 = none →
        (r.routeRequest req crash).2.status = 503) ∧
      (∀ p ic e, poolsLookup r.pools (extractSiteId req) = some p →
        (selectCage r.config.strategy p).2 = some ic →
        (if crash then ic.2.markCrashed else ic.2).executeRequest = Except.error e →
        (r.routeRequest req crash).2.status = 500) ∧
      (r.routeRequest req crash).1.totalRequests = (r.totalRequests + 1) % u64Mod ∧
      (((r.routeRequest req crash).1.successfulRequests =
          (r.successfulRequests + 1) % u64Mod ∧
        (r.routeRequest req crash).1.failedRequests = r.failedRequests) ∨
       ((r.routeRequest req crash).1.failedRequests =
          (r.failedRequests + 1) % u64Mod ∧
        (r.routeRequest req crash).1.successfulRequests = r.successfulRequests)) := by
  intro r req crash
  rcases hp : poolsLookup r.pools (extractSiteId req) with _ | p
  · refine ⟨?_, ?_, ?_, ?_, ?_⟩
    · intro _
      simp [Router.routeRequest, hp, errorResponse]
    · intro p2 hp2 _
      simp at hp2
    · intro p2 ic e hp2 _ _
      simp at hp2
    · simp [Router.routeRequest, hp]
    · right
      constructor
      · simp [Router.routeRequest, hp]
      · simp [Router.routeRequest, hp]
  · rcases hsel : (selectCage r.config.strategy p).2 with _ | ic
    · refine ⟨?_, ?_, ?_, ?_, ?_⟩
      · intro h1
        simp at h1
      · intro p2 hp2 _
        simp [Router.routeRequest, hp, hsel, errorResponse]
      · intro p2 ic e hp2 hsel2 _
        injection hp2 with h2
        subst h2
        rw [hsel] at hsel2
        simp at hsel2
      · simp [Router.routeRequest, hp, hsel]
      · right
        constructor
        · simp [Router.routeRequest, hp, hsel]
        · simp [Router.routeRequest, hp, hsel]
    · rcases hex : (if crash then ic.2.markCrashed else ic.2).executeRequest with e | res
      · refine ⟨?_, ?_, ?_, ?_, ?_⟩
        · intro h1
          simp at h1
        · intro p2 hp2 hsel2
          injection hp2 with h2
          subst h2
          rw [hsel] at hsel2
          simp at hsel2
        · intro p2 ic2 e2 hp2 hsel2 hex2
          simp [Router.routeRequest, hp, hsel, hex, errorResponse]
        · simp [Router.routeRequest, hp, hsel, hex]
        · right
          constructor
          · simp [Router.routeRequest, hp, hsel, hex]
          · simp [Router.routeRequest, hp, hsel, hex]
      · refine ⟨?_, ?_, ?_, ?_, ?_⟩
        · intro h1
          simp at h1
        · intro p2 hp2 hsel2
          injection hp2 with h2
          subst h2
          rw [hsel] at hsel2
          simp at hsel2
        · intro p2 ic2 e2 hp2 hsel2 hex2
          injection hp2 with h2
          subst h2
          rw [hsel] at hsel2
          injection hsel2 with h3
          subst h3
          rw [hex] at hex2
          simp at hex2
        · simp [Router.routeRequest, hp, hsel, hex]
        · left
          constructor
          · simp [Router.routeRequest, hp, hsel, hex]
          · simp [Router.routeRequest, hp, hsel, hex]

/-- C6 (witness): a router with no registered pools answers 404. -/
theorem c6_witness_unknown_site :
    ((Router.new RouterConfig.default).routeRequest
      { method := "GET", uri := "/", host := none } false).2.status = 404 :=
  (route_request_status_and_counters (Router.new RouterConfig.default)
    { method := "GET", uri := "/", host := none } false).1 rfl

/-- C7: on a pool with no Crashed or Terminated entries, maintain_replicas
is idempotent in size when the pool is at or above target (the second call
leaves the size the first call produced), and when below target it spawns
exactly the difference, landing at target_replicas. -/
theorem maintain_replicas_idempotent_and_exact :
    ∀ p : CagePool,
      (∀ c ∈ p.cages, c.state ≠ CageState.Crashed ∧ c.state ≠ CageState.Terminated) →
      ((p.targetReplicas ≤ p.cages.length →
        p.maintainReplicas.maintainReplicas.cages.length =
          p.maintainReplicas.cages.length) ∧
       (p.cages.length < p.targetReplicas →
        p.maintainReplicas.cages.length = p.targetReplicas)) := by
  intro p h
  have hm := maintain_no_crashed p h
  constructor
  · intro hge
    have hpp : p.maintainReplicas = p := by
      rw [hm, if_neg (Nat.not_lt.mpr hge)]
    rw [hpp, hpp]
  · intro hlt
    rw [hm, if_pos hlt, spawnN_cages_length]
    omega

/-- C7 (witness): a full one-replica pool is left unchanged in size by two
maintenance passes. -/
theorem c7_witness_full_pool :
    healthyPool.maintainReplicas.maintainReplicas.cages.length =
      healthyPool.maintainReplicas.cages.length :=
  (maintain_replicas_idempotent_and_exact healthyPool (by decide)).1 (by decide)

end PearServer
